import Mathlib

/-!
Verification of the article recommender (`Article/recommender.py`).

The module loads a corpus `df` with columns `Title` and `Article`, builds a
TF-IDF matrix and the all-pairs cosine similarity matrix `cosine_sim`, and
exposes

    def recommend_articles(title, top_n=5):
        try:
            if not isinstance(title, str):
                return ["Invalid input: title must be a string"]
            if title.strip() == "":
                return ["Please enter an article title"]
            if title not in df['Title'].values:
                return [f"Article not found: '{title}'"]
            idx = df[df['Title'] == title].index[0]
            sim_scores = list(enumerate(cosine_sim[idx]))
            sim_scores = sorted(sim_scores, key=lambda x: x[1], reverse=True)
            sim_scores = sim_scores[1:top_n+1]
            return [df.iloc[i[0]]['Title'] for i in sim_scores]
        except Exception:
            return ["Error generating recommendations"]

The embedding below treats the corpus titles (`df['Title']`) and the
similarity matrix (`cosine_sim`) as explicit arguments: `recommend_articles`
only reads them.  The ranking logic compares similarity scores, so it is
stated over an arbitrary linear order of scores; concrete evaluations use `ℚ`
and the cosine-matrix facts are proved over `ℝ`.  Operations that can raise
(`cosine_sim[idx]`, `df.iloc[...]`) return `Option`, `none` standing for a
raised exception caught by the `except` clause.
-/

/-- A Python value passed as the `title` argument: either a string, or any
value that is not a string (`isinstance(title, str)` fails on it). -/
inductive PyVal where
  | str (s : String)
  | nonStr

/-- Python's `title.strip()`: remove whitespace from both ends. -/
def pyStrip (s : String) : String :=
  String.mk (((s.data.dropWhile Char.isWhitespace).reverse.dropWhile
    Char.isWhitespace).reverse)

/-- The message `f"Article not found: '{title}'"`. -/
def notFoundMsg (t : String) : String := "Article not found: '" ++ t ++ "'"

/-- The order in which Python's `sorted(sim_scores, key=lambda x: x[1],
reverse=True)` arranges the enumerated `(position, score)` pairs: a pair comes
before another when its score is strictly larger, or when the scores are equal
and its original position is not later (Python's sort is stable, and the
enumerated positions are strictly increasing, so stability is exactly
position order among equal scores). -/
def rankLE {α : Type*} [LinearOrder α] (a b : ℕ × α) : Prop :=
  b.2 < a.2 ∨ (a.2 = b.2 ∧ a.1 ≤ b.1)

/-- Strict version of `rankLE`: strictly larger score, or equal score and
strictly earlier original position. -/
def rankLT {α : Type*} [LinearOrder α] (a b : ℕ × α) : Prop :=
  b.2 < a.2 ∨ (a.2 = b.2 ∧ a.1 < b.1)

instance {α : Type*} [LinearOrder α] : DecidableRel (rankLE (α := α)) := fun a b =>
  inferInstanceAs (Decidable (b.2 < a.2 ∨ (a.2 = b.2 ∧ a.1 ≤ b.1)))

instance {α : Type*} [LinearOrder α] : IsTotal (ℕ × α) rankLE := by
  constructor
  intro a b
  rcases lt_trichotomy a.2 b.2 with h | h | h
  · exact Or.inr (Or.inl h)
  · rcases Nat.le_total a.1 b.1 with h1 | h1
    · exact Or.inl (Or.inr ⟨h, h1⟩)
    · exact Or.inr (Or.inr ⟨h.symm, h1⟩)
  · exact Or.inl (Or.inl h)

instance {α : Type*} [LinearOrder α] : IsTrans (ℕ × α) rankLE := by
  constructor
  rintro a b c (h1 | ⟨e1, l1⟩) (h2 | ⟨e2, l2⟩)
  · exact Or.inl (h2.trans h1)
  · exact Or.inl (e2 ▸ h1)
  · exact Or.inl (e1 ▸ h2)
  · exact Or.inr ⟨e1.trans e2, l1.trans l2⟩

/-- `sorted(list(enumerate(cosine_sim[idx])), key=lambda x: x[1], reverse=True)`.
Python's stable descending sort of the enumerated row is the sort by `rankLE`. -/
def sortedScores {α : Type*} [LinearOrder α] (row : List α) : List (ℕ × α) :=
  row.enum.insertionSort rankLE

/-- `sim_scores[1:top_n+1]`: drop the first entry of the sorted list, keep the
next `top_n` entries. -/
def rankedSlice {α : Type*} [LinearOrder α] (row : List α) (top_n : ℕ) : List (ℕ × α) :=
  ((sortedScores row).drop 1).take top_n

/-- `[df.iloc[i[0]]['Title'] for i in sim_scores]`: positional lookup of each
title; an out-of-range position raises (`none`). -/
def lookupTitles {α : Type*} (titles : List String) : List (ℕ × α) → Option (List String)
  | [] => some []
  | p :: ps =>
    match titles[p.1]?, lookupTitles titles ps with
    | some t, some rest => some (t :: rest)
    | _, _ => none

/-- The ranking part of `recommend_articles` from a resolved row position
`idx`: fetch row `cosine_sim[idx]`, sort, slice, and look the titles up. -/
def rankFrom {α : Type*} [LinearOrder α] (titles : List String) (sim : List (List α))
    (idx top_n : ℕ) : Option (List String) :=
  match sim[idx]? with
  | none => none
  | some row => lookupTitles titles (rankedSlice row top_n)

/-- Body of `recommend_articles` inside the `try`: validation, exact-title
lookup (first matching row, as `df[df['Title'] == title].index[0]`), ranking.
`none` models an uncaught exception inside the body. -/
def recommendBody {α : Type*} [LinearOrder α] (titles : List String) (sim : List (List α))
    (title : PyVal) (top_n : ℕ) : Option (List String) :=
  match title with
  | PyVal.nonStr => some ["Invalid input: title must be a string"]
  | PyVal.str t =>
    if pyStrip t = "" then some ["Please enter an article title"]
    else if t ∈ titles then
      rankFrom titles sim (titles.findIdx (fun s => s == t)) top_n
    else some [notFoundMsg t]

/-- `recommend_articles(title, top_n)`: the body with its `except` clause. -/
def recommend_articles {α : Type*} [LinearOrder α] (titles : List String)
    (sim : List (List α)) (title : PyVal) (top_n : ℕ) : List String :=
  (recommendBody titles sim title top_n).getD ["Error generating recommendations"]

/-- Dot product of two rows of the TF-IDF matrix. -/
def dotp (u v : List ℝ) : ℝ := (List.zipWith (fun x y => x * y) u v).sum

/-- Cosine similarity of two rows, as `sklearn.metrics.pairwise.cosine_similarity`
computes it: the dot product divided by the product of the Euclidean norms.
For an all-zero row the quotient is `0` (sklearn keeps zero rows zero when
normalizing, and in Lean division by zero is zero). -/
noncomputable def cosineSim (u v : List ℝ) : ℝ :=
  dotp u v / (Real.sqrt (dotp u u) * Real.sqrt (dotp v v))

/-- Entry `(i, j)` of `cosine_sim = cosine_similarity(tfidf_matrix, tfidf_matrix)`. -/
noncomputable def cosine_sim (vecs : List (List ℝ)) (i j : ℕ) : ℝ :=
  cosineSim (vecs.getD i []) (vecs.getD j [])

/-! ### Supporting lemmas about the ranking path -/

theorem lookupTitles_eq_map {α : Type*} (titles : List String) :
    ∀ l : List (ℕ × α), (∀ p ∈ l, p.1 < titles.length) →
      lookupTitles titles l = some (l.map fun p => titles.getD p.1 "")
  | [], _ => rfl
  | p :: ps, h => by
    have hp : p.1 < titles.length := h p (List.mem_cons_self p ps)
    have hsome : titles[p.1]? = some titles[p.1] := List.getElem?_eq_getElem hp
    have hrec := lookupTitles_eq_map titles ps fun q hq => h q (List.mem_cons_of_mem p hq)
    simp [lookupTitles, hsome, hrec, List.getD_eq_getElem titles "" hp]

theorem mem_titles_of_lookupTitles {α : Type*} (titles : List String) :
    ∀ (l : List (ℕ × α)) (r : List String), lookupTitles titles l = some r →
      ∀ x ∈ r, x ∈ titles
  | [], r, h => by
    simp only [lookupTitles, Option.some.injEq] at h
    subst h
    simp
  | p :: ps, r, h => by
    cases hp : titles[p.1]? with
    | none => simp [lookupTitles, hp] at h
    | some t =>
      cases hr : lookupTitles titles ps with
      | none => simp [lookupTitles, hp, hr] at h
      | some rest =>
        simp only [lookupTitles, hp, hr, Option.some.injEq] at h
        subst h
        intro x hx
        rcases List.mem_cons.mp hx with rfl | hx
        · exact List.getElem?_mem hp
        · exact mem_titles_of_lookupTitles titles ps rest hr x hx

theorem sortedScores_perm {α : Type*} [LinearOrder α] (row : List α) :
    List.Perm (sortedScores row) row.enum :=
  List.perm_insertionSort _ _

theorem sortedScores_length {α : Type*} [LinearOrder α] (row : List α) :
    (sortedScores row).length = row.length := by
  rw [sortedScores, List.length_insertionSort, List.enum_length]

theorem sortedScores_sorted {α : Type*} [LinearOrder α] (row : List α) :
    (sortedScores row).Sorted rankLE :=
  List.sorted_insertionSort _ _

theorem sortedScores_fst_nodup {α : Type*} [LinearOrder α] (row : List α) :
    (sortedScores row).Pairwise fun a b => a.1 ≠ b.1 := by
  have hperm : List.Perm ((sortedScores row).map Prod.fst) (row.enum.map Prod.fst) :=
    (sortedScores_perm row).map _
  rw [List.enum_map_fst] at hperm
  have hnd : ((sortedScores row).map Prod.fst).Nodup :=
    hperm.nodup_iff.mpr (List.nodup_range _)
  exact List.pairwise_map.mp hnd

theorem sortedScores_pairwise_rankLT {α : Type*} [LinearOrder α] (row : List α) :
    (sortedScores row).Pairwise rankLT := by
  refine ((sortedScores_sorted row).and (sortedScores_fst_nodup row)).imp ?_
  rintro a b ⟨hab | ⟨he, hle⟩, hne⟩
  · exact Or.inl hab
  · exact Or.inr ⟨he, lt_of_le_of_ne hle hne⟩

theorem rankedSlice_sublist {α : Type*} [LinearOrder α] (row : List α) (n : ℕ) :
    List.Sublist (rankedSlice row n) (sortedScores row) :=
  (List.take_sublist _ _).trans (List.drop_sublist _ _)

theorem rankedSlice_pairwise {α : Type*} [LinearOrder α] (row : List α) (n : ℕ) :
    (rankedSlice row n).Pairwise rankLT :=
  (sortedScores_pairwise_rankLT row).sublist (rankedSlice_sublist row n)

theorem mem_enum_of_mem_rankedSlice {α : Type*} [LinearOrder α] {row : List α} {n : ℕ}
    {p : ℕ × α} (h : p ∈ rankedSlice row n) : p ∈ row.enum :=
  (sortedScores_perm row).mem_iff.mp ((rankedSlice_sublist row n).subset h)

theorem fst_lt_of_mem_rankedSlice {α : Type*} [LinearOrder α] {row : List α} {n : ℕ}
    {p : ℕ × α} (h : p ∈ rankedSlice row n) : p.1 < row.length := by
  have h2 := List.mem_enum_iff_getElem?.mp (mem_enum_of_mem_rankedSlice h)
  exact (List.getElem?_eq_some.mp h2).1

theorem rankedSlice_length {α : Type*} [LinearOrder α] (row : List α) (n : ℕ) :
    (rankedSlice row n).length = min n (row.length - 1) := by
  rw [rankedSlice, List.length_take, List.length_drop, sortedScores_length]

theorem findIdx_lt_of_mem {titles : List String} {t : String} (ht : t ∈ titles) :
    titles.findIdx (fun s => s == t) < titles.length :=
  List.findIdx_lt_length_of_exists ⟨t, ht, by simp⟩

/-- The not-found message for any title differs from the generic fallback
message of the `except` clause: their first characters differ. -/
theorem notFoundMsg_ne_error (t : String) :
    notFoundMsg t ≠ "Error generating recommendations" := by
  intro h
  have h2 : (some 'A' : Option Char) = some 'E' :=
    congrArg (fun s => s.data.head?) h
  exact absurd (Option.some.inj h2) (by decide)

/-- On a valid query (string title, non-blank, present in the corpus) whose
similarity row exists and has no positions beyond the title table, the code
returns the titles at the positions of the sorted, sliced score list. -/
theorem recommend_articles_valid {α : Type*} [LinearOrder α] (titles : List String)
    (sim : List (List α)) (t : String) (top_n : ℕ) (row : List α)
    (hnb : pyStrip t ≠ "") (ht : t ∈ titles)
    (hrow : sim[titles.findIdx (fun s => s == t)]? = some row)
    (hlen : row.length ≤ titles.length) :
    recommend_articles titles sim (PyVal.str t) top_n =
      (rankedSlice row top_n).map fun p => titles.getD p.1 "" := by
  have hbody : recommendBody titles sim (PyVal.str t) top_n =
      lookupTitles titles (rankedSlice row top_n) := by
    rw [recommendBody, if_neg hnb, if_pos ht, rankFrom, hrow]
  rw [recommend_articles, hbody, lookupTitles_eq_map titles _
    (fun p hp => lt_of_lt_of_le (fst_lt_of_mem_rankedSlice hp) hlen)]
  rfl

/-! ### Supporting lemmas about cosine similarity -/

theorem dotp_eq_sum (u v : List ℝ) :
    dotp u v = ∑ k ∈ Finset.range (min u.length v.length), u.getD k 0 * v.getD k 0 := by
  induction u generalizing v with
  | nil => simp [dotp]
  | cons a u ih =>
    cases v with
    | nil => simp [dotp]
    | cons b v =>
      simp only [dotp, List.zipWith_cons_cons, List.sum_cons, List.length_cons]
      rw [Nat.succ_min_succ, Finset.sum_range_succ']
      simp only [List.getD_cons_succ, List.getD_cons_zero]
      rw [← dotp, ih v]
      ring

theorem dotp_self_eq_sum (u : List ℝ) :
    dotp u u = ∑ k ∈ Finset.range u.length, u.getD k 0 * u.getD k 0 := by
  rw [dotp_eq_sum, Nat.min_self]

theorem dotp_self_nonneg (u : List ℝ) : 0 ≤ dotp u u := by
  rw [dotp_self_eq_sum]
  exact Finset.sum_nonneg fun k _ => mul_self_nonneg _

theorem dotp_eq_zero_of_self_eq_zero {u : List ℝ} (h : dotp u u = 0) (v : List ℝ) :
    dotp u v = 0 := by
  have hz : ∀ k ∈ Finset.range u.length, u.getD k 0 * u.getD k 0 = 0 := by
    rw [dotp_self_eq_sum] at h
    exact (Finset.sum_eq_zero_iff_of_nonneg fun k _ => mul_self_nonneg _).mp h
  have hu : ∀ k, k < u.length → u.getD k 0 = 0 := fun k hk =>
    mul_self_eq_zero.mp (hz k (Finset.mem_range.mpr hk))
  rw [dotp_eq_sum]
  refine Finset.sum_eq_zero fun k hk => ?_
  have hk0 : u.getD k 0 = 0 :=
    hu k (lt_of_lt_of_le (Finset.mem_range.mp hk) (Nat.min_le_left _ _))
  rw [hk0, zero_mul]

theorem dotp_comm (u v : List ℝ) : dotp u v = dotp v u := by
  rw [dotp_eq_sum, dotp_eq_sum, Nat.min_comm]
  exact Finset.sum_congr rfl fun k _ => mul_comm _ _

theorem sum_sq_le_dotp_self (u : List ℝ) (m : ℕ) (hm : m ≤ u.length) :
    ∑ k ∈ Finset.range m, u.getD k 0 ^ 2 ≤ dotp u u := by
  rw [dotp_self_eq_sum]
  calc ∑ k ∈ Finset.range m, u.getD k 0 ^ 2
      = ∑ k ∈ Finset.range m, u.getD k 0 * u.getD k 0 :=
        Finset.sum_congr rfl fun k _ => pow_two _
    _ ≤ ∑ k ∈ Finset.range u.length, u.getD k 0 * u.getD k 0 :=
        Finset.sum_le_sum_of_subset_of_nonneg (Finset.range_subset.mpr hm)
          fun k _ _ => mul_self_nonneg _

theorem cauchy_dotp (u v : List ℝ) :
    dotp u v ≤ Real.sqrt (dotp u u) * Real.sqrt (dotp v v) := by
  rw [dotp_eq_sum u v]
  calc ∑ k ∈ Finset.range (min u.length v.length), u.getD k 0 * v.getD k 0
      ≤ Real.sqrt (∑ k ∈ Finset.range (min u.length v.length), u.getD k 0 ^ 2) *
        Real.sqrt (∑ k ∈ Finset.range (min u.length v.length), v.getD k 0 ^ 2) :=
        Real.sum_mul_le_sqrt_mul_sqrt _ _ _
    _ ≤ Real.sqrt (dotp u u) * Real.sqrt (dotp v v) := by
        apply mul_le_mul _ _ (Real.sqrt_nonneg _) (Real.sqrt_nonneg _)
        · exact Real.sqrt_le_sqrt (sum_sq_le_dotp_self u _ (Nat.min_le_left _ _))
        · exact Real.sqrt_le_sqrt (sum_sq_le_dotp_self v _ (Nat.min_le_right _ _))

theorem cosineSim_comm (u v : List ℝ) : cosineSim u v = cosineSim v u := by
  rw [cosineSim, cosineSim, dotp_comm u v, mul_comm]

theorem cosineSim_le_self (u v : List ℝ) : cosineSim u v ≤ cosineSim u u := by
  rcases eq_or_lt_of_le (dotp_self_nonneg u) with hu0 | hu0
  · rw [cosineSim, cosineSim, dotp_eq_zero_of_self_eq_zero hu0.symm v,
      dotp_eq_zero_of_self_eq_zero hu0.symm u, zero_div, zero_div]
  · have h1 : cosineSim u u = 1 := by
      rw [cosineSim, Real.mul_self_sqrt (dotp_self_nonneg u), div_self (ne_of_gt hu0)]
    rw [h1, cosineSim]
    rcases eq_or_lt_of_le (dotp_self_nonneg v) with hv0 | hv0
    · rw [dotp_comm u v, dotp_eq_zero_of_self_eq_zero hv0.symm u, zero_div]
      exact zero_le_one
    · have hden : 0 < Real.sqrt (dotp u u) * Real.sqrt (dotp v v) :=
        mul_pos (Real.sqrt_pos.mpr hu0) (Real.sqrt_pos.mpr hv0)
      rw [div_le_one hden]
      exact cauchy_dotp u v

/-! ### The claims -/

/-- C1: the claim says the output of `recommend_articles` never includes the query
title, even when the query article's vector is all-zero.  The code violates this:
it excludes the query by dropping the first element of the sorted list
(`sim_scores[1:top_n+1]`), which is the query's own entry only when the query's
self-similarity is first after the stable descending sort.  With corpus titles
["A", "B"] where article "B" has an all-zero vector — so its cosine row is
[0, 0], self-similarity included — all scores tie, the stable sort keeps corpus
order, the slice drops article "A" at position 0, and the query "B" itself is
returned. -/
theorem c1_query_title_in_output :
    recommend_articles ["A", "B"] [[(1 : ℚ), 0], [0, 0]] (PyVal.str "B") 1 = ["B"] := by
  decide

/-- C2: for every valid query (non-blank string title present in the corpus,
positive `top_n`) on a well-formed index (the matched row exists and has one
score per article), the output has length exactly `min top_n (n - 1)` where `n`
is the corpus size. -/
theorem c2_output_length {α : Type*} [LinearOrder α] (titles : List String)
    (sim : List (List α)) (t : String) (top_n : ℕ) (row : List α)
    (hnb : pyStrip t ≠ "") (ht : t ∈ titles) (hpos : 0 < top_n)
    (hrow : sim[titles.findIdx (fun s => s == t)]? = some row)
    (hlen : row.length = titles.length) :
    (recommend_articles titles sim (PyVal.str t) top_n).length =
      min top_n (titles.length - 1) := by
  rw [recommend_articles_valid titles sim t top_n row hnb ht hrow (le_of_eq hlen),
    List.length_map, rankedSlice_length, hlen]

/-- Witness for C2: corpus of 3 articles, top_n = 5, output length min 5 2 = 2. -/
theorem c2_output_length_witness :
    (recommend_articles ["A", "B", "C"] [[(1 : ℚ), 0, 0], [0, 1, 0], [0, 0, 1]]
      (PyVal.str "A") 5).length = min 5 2 :=
  c2_output_length ["A", "B", "C"] [[(1 : ℚ), 0, 0], [0, 1, 0], [0, 0, 1]] "A" 5
    [(1 : ℚ), 0, 0] (by decide) (by decide) (by decide) (by decide) (by decide)

/-- C3: on a valid query the output is exactly the titles, in order, of the
sorted-and-sliced score list, and that list is pairwise ordered by `rankLT`:
strictly descending score, with equal scores in strictly increasing corpus
position (the stable sort never re-ranks ties). -/
theorem c3_sorted_stable {α : Type*} [LinearOrder α] (titles : List String)
    (sim : List (List α)) (t : String) (top_n : ℕ) (row : List α)
    (hnb : pyStrip t ≠ "") (ht : t ∈ titles)
    (hrow : sim[titles.findIdx (fun s => s == t)]? = some row)
    (hlen : row.length ≤ titles.length) :
    recommend_articles titles sim (PyVal.str t) top_n =
      (rankedSlice row top_n).map (fun p => titles.getD p.1 "") ∧
    (rankedSlice row top_n).Pairwise rankLT :=
  ⟨recommend_articles_valid titles sim t top_n row hnb ht hrow hlen,
   rankedSlice_pairwise row top_n⟩

/-- Witness for C3: a corpus where the two candidates tie at score 0. -/
theorem c3_sorted_stable_witness :
    recommend_articles ["A", "B", "C"]
        [[(1 : ℚ), 0, 0], [0, 1, 0], [0, 0, 1]] (PyVal.str "A") 5 =
      (rankedSlice [(1 : ℚ), 0, 0] 5).map (fun p => ["A", "B", "C"].getD p.1 "") ∧
    (rankedSlice [(1 : ℚ), 0, 0] 5).Pairwise rankLT :=
  c3_sorted_stable ["A", "B", "C"] [[(1 : ℚ), 0, 0], [0, 1, 0], [0, 0, 1]]
    "A" 5 [(1 : ℚ), 0, 0] (by decide) (by decide) (by decide) (by decide)

/-- C4: `recommend_articles` is a total function; on every input whatsoever its
result is one of the four single-element message lists, or a ranking all of
whose entries are corpus titles. -/
theorem c4_never_raises {α : Type*} [LinearOrder α] (titles : List String)
    (sim : List (List α)) (title : PyVal) (top_n : ℕ) :
    recommend_articles titles sim title top_n =
      ["Invalid input: title must be a string"] ∨
    recommend_articles titles sim title top_n = ["Please enter an article title"] ∨
    (∃ t, title = PyVal.str t ∧
      recommend_articles titles sim title top_n = [notFoundMsg t]) ∨
    recommend_articles titles sim title top_n =
      ["Error generating recommendations"] ∨
    (∀ x ∈ recommend_articles titles sim title top_n, x ∈ titles) := by
  cases title with
  | nonStr => exact Or.inl rfl
  | str t =>
    by_cases hb : pyStrip t = ""
    · refine Or.inr (Or.inl ?_)
      rw [recommend_articles, recommendBody, if_pos hb]
      rfl
    · by_cases ht : t ∈ titles
      · rw [recommend_articles, recommendBody, if_neg hb, if_pos ht, rankFrom]
        cases hrow : sim[titles.findIdx (fun s => s == t)]? with
        | none => exact Or.inr (Or.inr (Or.inr (Or.inl rfl)))
        | some row =>
          cases hlk : lookupTitles titles (rankedSlice row top_n) with
          | none =>
            refine Or.inr (Or.inr (Or.inr (Or.inl ?_)))
            show (lookupTitles titles (rankedSlice row top_n)).getD
              ["Error generating recommendations"] = ["Error generating recommendations"]
            rw [hlk]
            rfl
          | some r =>
            refine Or.inr (Or.inr (Or.inr (Or.inr ?_)))
            show ∀ x ∈ (lookupTitles titles (rankedSlice row top_n)).getD
              ["Error generating recommendations"], x ∈ titles
            rw [hlk]
            exact mem_titles_of_lookupTitles titles _ r hlk
      · refine Or.inr (Or.inr (Or.inl ⟨t, rfl, ?_⟩))
        rw [recommend_articles, recommendBody, if_neg hb, if_neg ht]
        rfl

/-- Witness for C4 at a concrete input. -/
theorem c4_never_raises_witness :
    recommend_articles ["A"] [[(1 : ℚ)]] (PyVal.str "A") 5 =
      ["Invalid input: title must be a string"] ∨
    recommend_articles ["A"] [[(1 : ℚ)]] (PyVal.str "A") 5 =
      ["Please enter an article title"] ∨
    (∃ t, PyVal.str "A" = PyVal.str t ∧
      recommend_articles ["A"] [[(1 : ℚ)]] (PyVal.str "A") 5 = [notFoundMsg t]) ∨
    recommend_articles ["A"] [[(1 : ℚ)]] (PyVal.str "A") 5 =
      ["Error generating recommendations"] ∨
    (∀ x ∈ recommend_articles ["A"] [[(1 : ℚ)]] (PyVal.str "A") 5, x ∈ ["A"]) :=
  c4_never_raises ["A"] [[(1 : ℚ)]] (PyVal.str "A") 5

/-- C5 counterexample: the claim's "if and only if" fails.  Here the second
corpus title is the literal string "Article not found: 'A'"; querying "A" (an
exact match, so no not-found condition holds) ranks that article first and the
output is exactly the single-element not-found message for "A". -/
theorem c5_counterexample :
    recommend_articles ["A", "Article not found: 'A'"] [[(1 : ℚ), 1], [1, 1]]
        (PyVal.str "A") 5 = [notFoundMsg "A"] ∧
    "A" ∈ ["A", "Article not found: 'A'"] := by
  constructor
  · decide
  · decide

/-- C5 amended: for a non-blank string title, when no article has that exact
title the result is exactly the single-element not-found message —
unconditionally; and the converse — the result equals that message only when
no exact match exists — holds provided the message string itself is not a
corpus title.  (On a matched query the result is either the distinct generic
fallback message or a list of corpus titles, so it can only coincide with the
not-found message if that message is itself a corpus title, which is exactly
what the counterexample exploits.) -/
theorem c5_notfound_iff {α : Type*} [LinearOrder α] (titles : List String)
    (sim : List (List α)) (t : String) (top_n : ℕ) (hnb : pyStrip t ≠ "") :
    (t ∉ titles →
      recommend_articles titles sim (PyVal.str t) top_n = [notFoundMsg t]) ∧
    (notFoundMsg t ∉ titles →
      (recommend_articles titles sim (PyVal.str t) top_n = [notFoundMsg t] ↔
        t ∉ titles)) := by
  have hout : ∀ _ : t ∉ titles,
      recommend_articles titles sim (PyVal.str t) top_n = [notFoundMsg t] := by
    intro ht
    rw [recommend_articles, recommendBody, if_neg hnb, if_neg ht]
    rfl
  refine ⟨hout, fun hmsg => ⟨fun h ht => ?_, hout⟩⟩
  rw [recommend_articles, recommendBody, if_neg hnb, if_pos ht, rankFrom] at h
  cases hrow : sim[titles.findIdx (fun s => s == t)]? with
  | none =>
    rw [hrow] at h
    have h4 : ["Error generating recommendations"] = [notFoundMsg t] := h
    exact notFoundMsg_ne_error t (List.cons.inj h4).1.symm
  | some row =>
    rw [hrow] at h
    have h3 : (lookupTitles titles (rankedSlice row top_n)).getD
        ["Error generating recommendations"] = [notFoundMsg t] := h
    cases hlk : lookupTitles titles (rankedSlice row top_n) with
    | none =>
      rw [hlk] at h3
      have h4 : ["Error generating recommendations"] = [notFoundMsg t] := h3
      exact notFoundMsg_ne_error t (List.cons.inj h4).1.symm
    | some r =>
      rw [hlk] at h3
      have h4 : r = [notFoundMsg t] := h3
      have hin : notFoundMsg t ∈ r := by
        rw [h4]; exact List.mem_singleton_self _
      exact hmsg (mem_titles_of_lookupTitles titles _ r hlk _ hin)

/-- Witness for C5's amended theorem: querying "Z" against corpus ["A", "B"]. -/
theorem c5_notfound_iff_witness :
    ("Z" ∉ ["A", "B"] →
      recommend_articles ["A", "B"] [[(1 : ℚ), 0], [0, 1]] (PyVal.str "Z") 5 =
        [notFoundMsg "Z"]) ∧
    (notFoundMsg "Z" ∉ ["A", "B"] →
      (recommend_articles ["A", "B"] [[(1 : ℚ), 0], [0, 1]] (PyVal.str "Z") 5 =
        [notFoundMsg "Z"] ↔ "Z" ∉ ["A", "B"])) :=
  c5_notfound_iff ["A", "B"] [[(1 : ℚ), 0], [0, 1]] "Z" 5 (by decide)

/-- C6: a non-string title yields exactly the invalid-input message, and a
string title that strips to empty yields exactly the blank-title message; a
non-string value never reaches the blank check (it is answered by the type
check alone, whatever the corpus, matrix or `top_n`). -/
theorem c6_type_then_blank {α : Type*} [LinearOrder α] (titles : List String)
    (sim : List (List α)) (top_n : ℕ) (s : String) (hs : pyStrip s = "") :
    recommend_articles titles sim PyVal.nonStr top_n =
      ["Invalid input: title must be a string"] ∧
    recommend_articles titles sim (PyVal.str s) top_n =
      ["Please enter an article title"] := by
  constructor
  · rfl
  · rw [recommend_articles, recommendBody, if_pos hs]
    rfl

/-- Witness for C6 with a whitespace-only title. -/
theorem c6_type_then_blank_witness :
    recommend_articles ["A"] [[(1 : ℚ)]] PyVal.nonStr 5 =
      ["Invalid input: title must be a string"] ∧
    recommend_articles ["A"] [[(1 : ℚ)]] (PyVal.str "  ") 5 =
      ["Please enter an article title"] :=
  c6_type_then_blank ["A"] [[(1 : ℚ)]] 5 "  " (by decide)

/-- C7: the cosine similarity matrix is symmetric: entry (i, j) equals entry
(j, i) for all positions. -/
theorem c7_sim_symmetric (vecs : List (List ℝ)) (i j : ℕ) :
    cosine_sim vecs i j = cosine_sim vecs j i := by
  rw [cosine_sim, cosine_sim]
  exact cosineSim_comm _ _

/-- C8: every diagonal entry of the cosine similarity matrix bounds its row:
sim(i, j) ≤ sim(i, i) for all j, including the all-zero-vector case where the
whole row (diagonal included) is zero. -/
theorem c8_diagonal_max (vecs : List (List ℝ)) (i j : ℕ) :
    cosine_sim vecs i j ≤ cosine_sim vecs i i := by
  rw [cosine_sim, cosine_sim]
  exact cosineSim_le_self _ _

/-- C9: when several articles share the queried title, the query resolves to
the first (lowest-position) matching row and the result is that row's ranking
(with the generic error fallback of the `except` clause), not a duplicate-title
error. -/
theorem c9_first_match {α : Type*} [LinearOrder α] (titles : List String)
    (sim : List (List α)) (t : String) (top_n i j : ℕ)
    (hij : i < j) (hi : titles[i]? = some t) (hj : titles[j]? = some t)
    (hfirst : ∀ k, k < i → titles[k]? ≠ some t)
    (hnb : pyStrip t ≠ "") :
    recommend_articles titles sim (PyVal.str t) top_n =
      (rankFrom titles sim i top_n).getD ["Error generating recommendations"] := by
  obtain ⟨hilt, hieq⟩ := List.getElem?_eq_some.mp hi
  have ht : t ∈ titles := List.getElem?_mem hi
  have hidx : titles.findIdx (fun s => s == t) = i := by
    rw [List.findIdx_eq hilt]
    constructor
    · simp [hieq]
    · intro k hk
      have hklt : k < titles.length := hk.trans hilt
      by_contra hcon
      rw [Bool.not_eq_false, beq_iff_eq] at hcon
      exact hfirst k hk (by rw [List.getElem?_eq_getElem hklt, hcon])
  rw [recommend_articles, recommendBody, if_neg hnb, if_pos ht, hidx]

/-- Witness for C9: the title "A" occurs at positions 1 and 2; the query uses
row 1. -/
theorem c9_first_match_witness :
    recommend_articles ["X", "A", "A"] [[(1 : ℚ), 0, 0], [0, 1, 1], [0, 1, 1]]
        (PyVal.str "A") 5 =
      (rankFrom ["X", "A", "A"] [[(1 : ℚ), 0, 0], [0, 1, 1], [0, 1, 1]] 1 5).getD
        ["Error generating recommendations"] :=
  c9_first_match ["X", "A", "A"] [[(1 : ℚ), 0, 0], [0, 1, 1], [0, 1, 1]] "A" 5 1 2
    (by decide) (by decide) (by decide)
    (fun k hk => by
      have hk0 : k = 0 := by omega
      subst hk0
      decide)
    (by decide)

/-- C10: `top_n` is not validated; on a valid title, `top_n = 0` yields the
empty list (the slice `[1:1]` is empty), not an error message. -/
theorem c10_topn_zero {α : Type*} [LinearOrder α] (titles : List String)
    (sim : List (List α)) (t : String) (row : List α)
    (hnb : pyStrip t ≠ "") (ht : t ∈ titles)
    (hrow : sim[titles.findIdx (fun s => s == t)]? = some row) :
    recommend_articles titles sim (PyVal.str t) 0 = [] := by
  have hbody : recommendBody titles sim (PyVal.str t) 0 =
      lookupTitles titles (rankedSlice row 0) := by
    rw [recommendBody, if_neg hnb, if_pos ht, rankFrom, hrow]
  rw [recommend_articles, hbody, rankedSlice, List.take_zero]
  rfl

/-- Witness for C10. -/
theorem c10_topn_zero_witness :
    recommend_articles ["A", "B"] [[(1 : ℚ), 0], [0, 1]] (PyVal.str "A") 0 = [] :=
  c10_topn_zero ["A", "B"] [[(1 : ℚ), 0], [0, 1]] "A" [(1 : ℚ), 0]
    (by decide) (by decide) (by decide)

